import Mathlib

/-
  Shallow embedding of the es-license-validator core (Go) for specification
  checking.  Sources embedded:
    - pkg/license/validator.go   (Validator.Validate, parseLicense)
    - pkg/phonehome/client.go    (Client.SendPhoneHome retry loop,
                                  getValidationStatus, getValidationMessage)
    - cmd/validator/main.go      (runValidation node-count fallback)
  Time is modelled as Unix seconds (Int); AddDate(0,0,d) is modelled as
  adding d*86400 seconds.  Go float64 claim values are modelled as Int,
  which preserves the type-assertion behaviour the claims are about.
  The third-party JWT library is abstracted: a parsed token carries its
  header algorithm, its claim map, and whether its RSA signature verifies
  under the trusted key.
-/

namespace ESLV

/-- JWT signing algorithms relevant to the keyfunc check in
`Validator.Validate` (validator.go:104-110). `algNone` is the well-known
"none" algorithm. -/
inductive Alg where
  | RS256 | RS384 | RS512
  | PS256 | PS384 | PS512
  | ES256 | ES384 | ES512
  | HS256 | HS384 | HS512
  | algNone
deriving DecidableEq

/-- The header name of each algorithm, as it would appear in
`token.Header["alg"]`. -/
def algName : Alg → String
  | .RS256 => "RS256" | .RS384 => "RS384" | .RS512 => "RS512"
  | .PS256 => "PS256" | .PS384 => "PS384" | .PS512 => "PS512"
  | .ES256 => "ES256" | .ES384 => "ES384" | .ES512 => "ES512"
  | .HS256 => "HS256" | .HS384 => "HS384" | .HS512 => "HS512"
  | .algNone => "none"

/-- Embeds the type assertion `token.Method.(*jwt.SigningMethodRSA)` in the
keyfunc (validator.go:106): it succeeds exactly for the RSA PKCS#1 v1.5
methods RS256, RS384, RS512 (RSA-PSS methods are a distinct dynamic type in
the library, so the assertion fails for them). -/
def isSigningMethodRSA : Alg → Bool
  | .RS256 | .RS384 | .RS512 => true
  | _ => false

/-- Modelled from the spec: the "asymmetric, 512-bit-class" algorithm
family named in the spec sentence for C1 (an asymmetric algorithm using a
512-bit hash), used only to compare the spec wording against the source
check `isSigningMethodRSA`. -/
def isAsymmetric512Class : Alg → Bool
  | .RS512 | .PS512 | .ES512 => true
  | _ => false

/-- A decoded JSON claim value, as produced by the JWT library before the
type-asserted lookups in `parseLicense` (numbers arrive as Go float64,
modelled as Int). -/
inductive ClaimVal where
  | str (s : String)
  | num (x : Int)
  | boolean (b : Bool)
  | obj (fields : List (String × ClaimVal))
  | arr (elems : List ClaimVal)

/-- Embeds the Go type assertion `v.(string)` on an optional map lookup. -/
def asString : Option ClaimVal → Option String
  | some (.str s) => some s
  | _ => none

/-- Embeds the Go type assertion `v.(float64)` on an optional map lookup. -/
def asNum : Option ClaimVal → Option Int
  | some (.num x) => some x
  | _ => none

/-- Embeds the Go type assertion `v.(bool)` on an optional map lookup. -/
def asBool : Option ClaimVal → Option Bool
  | some (.boolean b) => some b
  | _ => none

/-- PhoneHomeConfig (validator.go:43-47). -/
structure PhoneHomeConfig where
  enabled : Bool
  url : String
  intervalHours : Int
deriving DecidableEq

/-- License (validator.go:14-40).  The Go field `Namespace` is named
`nspace` here because `namespace` is a reserved word in Lean.  Times are
Unix seconds.  `nodeSelector`/`features` are `Option` so that an absent
claim (Go nil map/slice) stays distinguishable from a present empty one. -/
structure License where
  issuer : String
  subject : String
  issuedAt : Int
  expiresAt : Int
  notBefore : Int
  licenseID : String
  customerID : String
  customerName : String
  productCode : String
  productName : String
  tierCode : String
  tierName : String
  clusterID : String
  clusterName : String
  nspace : String
  licensedNodes : Int
  maxNodes : Int
  nodeSelector : Option (List (String × String))
  features : Option (List String)
  gracePeriodDays : Int
  warningDays : Int
  phoneHome : PhoneHomeConfig
deriving DecidableEq

/-- Embeds `parseLicense` (validator.go:169-267): every claim is looked up
with an optional type assertion; a missing or ill-typed claim leaves the Go
zero value.  The function always returns `nil` error in the source, hence
always `Except.ok` here. -/
def parseLicense (claims : List (String × ClaimVal)) : Except String License :=
  Except.ok
    { issuer := (asString (claims.lookup "iss")).getD ""
      subject := (asString (claims.lookup "sub")).getD ""
      issuedAt := (asNum (claims.lookup "iat")).getD 0
      expiresAt := (asNum (claims.lookup "exp")).getD 0
      notBefore := (asNum (claims.lookup "nbf")).getD 0
      licenseID := (asString (claims.lookup "license_id")).getD ""
      customerID := (asString (claims.lookup "customer_id")).getD ""
      customerName := (asString (claims.lookup "customer_name")).getD ""
      productCode := (asString (claims.lookup "product_code")).getD ""
      productName := (asString (claims.lookup "product_name")).getD ""
      tierCode := (asString (claims.lookup "tier_code")).getD ""
      tierName := (asString (claims.lookup "tier_name")).getD ""
      clusterID := (asString (claims.lookup "cluster_id")).getD ""
      clusterName := (asString (claims.lookup "cluster_name")).getD ""
      nspace := (asString (claims.lookup "namespace")).getD ""
      licensedNodes := (asNum (claims.lookup "licensed_nodes")).getD 0
      maxNodes := (asNum (claims.lookup "max_nodes")).getD 0
      nodeSelector :=
        match claims.lookup "node_selector" with
        | some (.obj fields) =>
            some (fields.filterMap fun p =>
              match p.2 with
              | .str s => some (p.1, s)
              | _ => none)
        | _ => none
      features :=
        match claims.lookup "features" with
        | some (.arr elems) =>
            some (elems.filterMap fun v =>
              match v with
              | .str s => some s
              | _ => none)
        | _ => none
      gracePeriodDays := (asNum (claims.lookup "grace_period_days")).getD 0
      warningDays := (asNum (claims.lookup "warning_days")).getD 0
      phoneHome :=
        match claims.lookup "phone_home" with
        | some (.obj fields) =>
            { enabled := (asBool (fields.lookup "enabled")).getD false
              url := (asString (fields.lookup "url")).getD ""
              intervalHours := (asNum (fields.lookup "interval_hours")).getD 0 }
        | _ => { enabled := false, url := "", intervalHours := 0 } }

/-- A structurally parsed JWT as the library hands it to verification: the
header algorithm, the decoded claim map, and whether the RSA signature
verifies under the trusted public key. -/
structure Token where
  headerAlg : Alg
  claims : List (String × ClaimVal)
  sigOK : Bool

/-- Embeds `jwt.ParseWithClaims` with the keyfunc of `Validator.Validate`
(validator.go:104-110): a structurally malformed input is already an error;
otherwise the keyfunc rejects any non-RSA signing method, and then the
signature is checked under the trusted key. -/
def jwtParse : Except String Token → Except String Token
  | .error e => .error e
  | .ok t =>
      if isSigningMethodRSA t.headerAlg = false then
        .error ("unexpected signing method: " ++ algName t.headerAlg)
      else if t.sigOK = false then
        .error "token signature is invalid"
      else
        .ok t

/-- ValidationResult (validator.go:50-66). `errorMsg` embeds the `Error`
field as the error text; `validationTime` is omitted (it is never read by
the embedded logic). -/
structure ValidationResult where
  valid : Bool
  license : Option License
  errorMsg : Option String
  expiresAt : Int
  daysUntilExpiry : Int
  isInGracePeriod : Bool
  nodeCount : Int
  licensedNodes : Int
  nodeCountValid : Bool
  namespaceValid : Bool
  actualNamespace : String
  licenseNamespace : String
  signatureValid : Bool
  expiryValid : Bool
deriving DecidableEq

/-- The namespace-mismatch error text (validator.go:161); `\x27` is the
ASCII single-quote of the Go format string. -/
def mismatchMsg (licNs actualNs : String) : String :=
  "namespace mismatch: license is for namespace \x27" ++ licNs ++
    "\x27 but validator is running in \x27" ++ actualNs ++ "\x27"

/-- Embeds validator.go:136-165, the part of `Validator.Validate` that runs
after a successful parse of token and claims: the expiry, grace-period,
node-count and namespace sub-checks, the overall conjunction, and the
namespace-mismatch override.  `signatureValid` is `true` here because this
point is only reached with `token.Valid` set. -/
def checkLicense (l : License) (now nodeCount : Int) (actualNamespace : String) :
    ValidationResult :=
  let expiryValid : Bool := decide (now < l.expiresAt)
  let graceEnd : Int := l.expiresAt + l.gracePeriodDays * 86400
  let isInGrace : Bool := decide (l.expiresAt < now) && decide (now < graceEnd)
  let nodeCountValid : Bool := decide (nodeCount ≤ l.licensedNodes)
  let namespaceValid : Bool := decide (actualNamespace = l.nspace)
  let valid0 : Bool := true && (expiryValid || isInGrace) && nodeCountValid && namespaceValid
  { valid := if namespaceValid then valid0 else false
    license := some l
    errorMsg := if namespaceValid then none else some (mismatchMsg l.nspace actualNamespace)
    expiresAt := l.expiresAt
    daysUntilExpiry := Int.tdiv (l.expiresAt - now) 86400
    isInGracePeriod := isInGrace
    nodeCount := nodeCount
    licensedNodes := l.licensedNodes
    nodeCountValid := nodeCountValid
    namespaceValid := namespaceValid
    actualNamespace := actualNamespace
    licenseNamespace := l.nspace
    signatureValid := true
    expiryValid := expiryValid }

/-- Embeds `Validator.Validate` (validator.go:96-166).  The input is the
outcome of structurally parsing the JWT string; a parse, algorithm or
signature failure produces the early-return result of validator.go:112-116
(all sub-check booleans at their zero value `false`, no License). -/
def validate (parsed : Except String Token) (now nodeCount : Int)
    (actualNamespace : String) : ValidationResult :=
  match jwtParse parsed with
  | .error e =>
      { valid := false
        license := none
        errorMsg := some ("JWT validation failed: " ++ e)
        expiresAt := 0
        daysUntilExpiry := 0
        isInGracePeriod := false
        nodeCount := nodeCount
        licensedNodes := 0
        nodeCountValid := false
        namespaceValid := false
        actualNamespace := actualNamespace
        licenseNamespace := ""
        signatureValid := false
        expiryValid := false }
  | .ok tok =>
      match parseLicense tok.claims with
      | .error e =>
          { valid := false
            license := none
            errorMsg := some ("failed to parse license: " ++ e)
            expiresAt := 0
            daysUntilExpiry := 0
            isInGracePeriod := false
            nodeCount := nodeCount
            licensedNodes := 0
            nodeCountValid := false
            namespaceValid := false
            actualNamespace := actualNamespace
            licenseNamespace := ""
            signatureValid := true
            expiryValid := false }
      | .ok l => checkLicense l now nodeCount actualNamespace

/-- Embeds the node-count fallback of `ValidatorService.runValidation`
(main.go:186-190): when counting labeled nodes fails, the cycle proceeds
with a count of 0 instead of aborting. -/
def countOrZero : Except String Int → Int
  | .ok n => n
  | .error _ => 0

/-- Embeds `getValidationStatus` (client.go:150-167): the first matching
rule of the if-chain decides the status string. -/
def getValidationStatus (r : ValidationResult) : String :=
  if r.valid then "valid"
  else if r.isInGracePeriod then "grace_period"
  else if !r.expiryValid then "expired"
  else if !r.nodeCountValid then "node_limit_exceeded"
  else if !r.signatureValid then "invalid_signature"
  else "invalid"

/-- The grace-period message of `getValidationMessage` (client.go:177). -/
def graceMessage (r : ValidationResult) : String :=
  "License expired but in grace period (" ++ toString (-r.daysUntilExpiry) ++
    " days until grace period ends)"

/-- The node-limit message of `getValidationMessage` (client.go:183). -/
def nodeCountMessage (r : ValidationResult) : String :=
  "Node count (" ++ toString r.nodeCount ++ ") exceeds licensed nodes (" ++
    toString r.licensedNodes ++ ")"

/-- Embeds `getValidationMessage` (client.go:169-189).  Note the source
checks `result.Error != nil` immediately after the `Valid` rule, before the
grace-period rule. -/
def getValidationMessage (r : ValidationResult) : String :=
  if r.valid then "License is valid"
  else
    match r.errorMsg with
    | some e => e
    | none =>
        if r.isInGracePeriod then graceMessage r
        else if !r.expiryValid then "License has expired"
        else if !r.nodeCountValid then nodeCountMessage r
        else if !r.signatureValid then "Invalid license signature"
        else "License validation failed"

/-- First-matching-rule selection over (condition, answer) pairs, used to
state the precedence contracts of the spec independently of the source
if-chains. -/
def firstMatch : List (Bool × String) → String → String
  | [], dflt => dflt
  | (c, s) :: rest, dflt => if c then s else firstMatch rest dflt

/-- Modelled from the spec: the six-rule status precedence of section 4.3
(valid, grace period, expired, node limit, signature, catch-all), written
as a first-match rule list. -/
def statusSpec (r : ValidationResult) : String :=
  firstMatch
    [(r.valid, "valid"),
     (r.isInGracePeriod, "grace_period"),
     (!r.expiryValid, "expired"),
     (!r.nodeCountValid, "node_limit_exceeded"),
     (!r.signatureValid, "invalid_signature")]
    "invalid"

/-- The message precedence actually implemented by the source: after the
valid rule, an attached error takes priority over every remaining rule,
then grace / expired / node-limit / signature / catch-all follow with
concrete numbers substituted. -/
def messageSpec (r : ValidationResult) : String :=
  firstMatch
    [(r.valid, "License is valid"),
     (r.errorMsg.isSome, r.errorMsg.getD ""),
     (r.isInGracePeriod, graceMessage r),
     (!r.expiryValid, "License has expired"),
     (!r.nodeCountValid, nodeCountMessage r),
     (!r.signatureValid, "Invalid license signature")]
    "License validation failed"

/-- Outcome of the `SendPhoneHome` retry loop (client.go:85-106):
`ok` models the nil return, `ctxCancelled` models returning `ctx.Err()`
from inside a backoff wait, and `retriesExhausted` models the final
wrapped error carrying the configured retry count and the last failure. -/
inductive SendResult where
  | ok : SendResult
  | ctxCancelled (reason : String) : SendResult
  | retriesExhausted (retries : Nat) (lastErr : String) : SendResult
deriving DecidableEq

/-- Embeds the loop body of `SendPhoneHome` (client.go:86-105).  `fuel` is
the number of loop iterations still allowed (`retries + 1 - attempt`),
`attempt` the current attempt index, and the last component of the result
counts attempts actually made while the middle one lists the backoff waits
performed, in seconds.  `attemptErr k` is the outcome of `sendRequest` on
attempt `k` (`none` = success); `cancelAt k` is the context cancellation
reason observed during the wait before attempt `k`, if any. -/
def sendAux (attemptErr : Nat → Option String) (cancelAt : Nat → Option String)
    (retries : Nat) : Nat → Nat → Option String → SendResult × List Nat × Nat
  | 0, _, lastErr => (SendResult.retriesExhausted retries (lastErr.getD ""), [], 0)
  | fuel + 1, attempt, _ =>
      if 0 < attempt then
        match cancelAt attempt with
        | some reason => (SendResult.ctxCancelled reason, [], 0)
        | none =>
            match attemptErr attempt with
            | none => (SendResult.ok, [attempt * attempt], 1)
            | some e =>
                let r := sendAux attemptErr cancelAt retries fuel (attempt + 1) (some e)
                (r.1, attempt * attempt :: r.2.1, r.2.2 + 1)
      else
        match attemptErr attempt with
        | none => (SendResult.ok, [], 1)
        | some e =>
            let r := sendAux attemptErr cancelAt retries fuel (attempt + 1) (some e)
            (r.1, r.2.1, r.2.2 + 1)

/-- Embeds the retry policy of `Client.SendPhoneHome` (client.go:85-106):
`for attempt := 0; attempt <= c.retries; attempt++`, with a quadratic
backoff wait before every attempt except the first. -/
def sendPhoneHome (retries : Nat) (attemptErr cancelAt : Nat → Option String) :
    SendResult × List Nat × Nat :=
  sendAux attemptErr cancelAt retries (retries + 1) 0 none

/-- The list of backoff waits performed by `fuel` consecutive failing
attempts starting at index `attempt` (a wait of `attempt²` seconds precedes
every attempt with a positive index). -/
def waitList : Nat → Nat → List Nat
  | _, 0 => []
  | attempt, fuel + 1 =>
      (if 0 < attempt then [attempt * attempt] else []) ++ waitList (attempt + 1) fuel

/-- The all-zero License, used as the unreachable fallback of `licenseOf`. -/
def zeroLicense : License :=
  { issuer := "", subject := "", issuedAt := 0, expiresAt := 0, notBefore := 0
    licenseID := "", customerID := "", customerName := ""
    productCode := "", productName := "", tierCode := "", tierName := ""
    clusterID := "", clusterName := "", nspace := ""
    licensedNodes := 0, maxNodes := 0
    nodeSelector := none, features := none
    gracePeriodDays := 0, warningDays := 0
    phoneHome := { enabled := false, url := "", intervalHours := 0 } }

/-- The License decoded from a claim map (`parseLicense` never fails in the
source, so the fallback branch is unreachable). -/
def licenseOf (claims : List (String × ClaimVal)) : License :=
  match parseLicense claims with
  | .ok l => l
  | .error _ => zeroLicense

/-- A small well-formed claim map: expiry at Unix second 1000, namespace
"prod", 5 licensed nodes, a 2-day grace period. -/
def sampleClaims : List (String × ClaimVal) :=
  [("iss", .str "enterprisesight"),
   ("exp", .num 1000),
   ("namespace", .str "prod"),
   ("licensed_nodes", .num 5),
   ("grace_period_days", .num 2)]

/-- A validly signed RS512 token over `sampleClaims`. -/
def sampleTok : Token :=
  { headerAlg := .RS512, claims := sampleClaims, sigOK := true }

/-- A validly signed RS256 token over `sampleClaims`. -/
def rs256Tok : Token :=
  { headerAlg := .RS256, claims := sampleClaims, sigOK := true }

/-- A token over `sampleClaims` asserting the "none" algorithm. -/
def noneAlgTok : Token :=
  { headerAlg := .algNone, claims := sampleClaims, sigOK := true }

/-- A claim map whose grace_period_days claim is negative. -/
def negGraceClaims : List (String × ClaimVal) :=
  [("exp", .num 1000000),
   ("namespace", .str "prod"),
   ("licensed_nodes", .num 5),
   ("grace_period_days", .num (-1))]

/-- A validly signed RS512 token over `negGraceClaims`. -/
def negGraceTok : Token :=
  { headerAlg := .RS512, claims := negGraceClaims, sigOK := true }

/-- A claim map whose licensed_nodes claim is present but not numeric. -/
def badNodesClaims : List (String × ClaimVal) :=
  [("exp", .num 1000),
   ("namespace", .str "prod"),
   ("licensed_nodes", .str "ten"),
   ("grace_period_days", .num 2)]

/-- A validly signed RS512 token over `badNodesClaims`. -/
def badNodesTok : Token :=
  { headerAlg := .RS512, claims := badNodesClaims, sigOK := true }

/-- A ValidationResult that is overall invalid, in grace, and over the node
limit at the same time. -/
def graceSample : ValidationResult :=
  { valid := false, license := none, errorMsg := none, expiresAt := 0
    daysUntilExpiry := -1, isInGracePeriod := true, nodeCount := 9
    licensedNodes := 5, nodeCountValid := false, namespaceValid := true
    actualNamespace := "prod", licenseNamespace := "prod"
    signatureValid := true, expiryValid := false }

/-- When the JWT parses, `validate` is `checkLicense` on the decoded
license (the claim-parsing stage never fails). -/
theorem validate_ok (parsed : Except String Token) (tok : Token) (l : License)
    (now nc : Int) (ns : String)
    (h1 : jwtParse parsed = Except.ok tok)
    (h2 : parseLicense tok.claims = Except.ok l) :
    validate parsed now nc ns = checkLicense l now nc ns := by
  unfold validate
  rw [h1]
  simp only [h2]

theorem checkLicense_expiryValid (l : License) (now nc : Int) (ns : String) :
    (checkLicense l now nc ns).expiryValid = decide (now < l.expiresAt) := rfl

theorem checkLicense_isInGracePeriod (l : License) (now nc : Int) (ns : String) :
    (checkLicense l now nc ns).isInGracePeriod =
      (decide (l.expiresAt < now) &&
        decide (now < l.expiresAt + l.gracePeriodDays * 86400)) := rfl

theorem checkLicense_nodeCountValid (l : License) (now nc : Int) (ns : String) :
    (checkLicense l now nc ns).nodeCountValid = decide (nc ≤ l.licensedNodes) := rfl

theorem checkLicense_namespaceValid (l : License) (now nc : Int) (ns : String) :
    (checkLicense l now nc ns).namespaceValid = decide (ns = l.nspace) := rfl

theorem checkLicense_signatureValid (l : License) (now nc : Int) (ns : String) :
    (checkLicense l now nc ns).signatureValid = true := rfl

/-- C2: for every result produced by a successful decode, the overall flag
equals the conjunction of the signature, expiry-or-grace, node-count and
namespace sub-checks of that same result. -/
theorem c2_overall_conjunction (parsed : Except String Token) (now nc : Int)
    (ns : String) (tok : Token) (h : jwtParse parsed = Except.ok tok) :
    (validate parsed now nc ns).valid =
      ((validate parsed now nc ns).signatureValid &&
        ((validate parsed now nc ns).expiryValid ||
          (validate parsed now nc ns).isInGracePeriod) &&
        (validate parsed now nc ns).nodeCountValid &&
        (validate parsed now nc ns).namespaceValid) := by
  rw [validate_ok parsed tok (licenseOf tok.claims) now nc ns h rfl]
  by_cases hns : ns = (licenseOf tok.claims).nspace
  · simp [checkLicense, hns]
  · simp [checkLicense, hns]

/-- C2 witness: the conjunction invariant evaluated on a concrete decoded
token. -/
theorem c2_overall_conjunction_witness :
    jwtParse (Except.ok sampleTok) = Except.ok sampleTok ∧
    (validate (Except.ok sampleTok) 500 3 "prod").valid =
      ((validate (Except.ok sampleTok) 500 3 "prod").signatureValid &&
        ((validate (Except.ok sampleTok) 500 3 "prod").expiryValid ||
          (validate (Except.ok sampleTok) 500 3 "prod").isInGracePeriod) &&
        (validate (Except.ok sampleTok) 500 3 "prod").nodeCountValid &&
        (validate (Except.ok sampleTok) 500 3 "prod").namespaceValid) :=
  ⟨rfl, c2_overall_conjunction (Except.ok sampleTok) 500 3 "prod" sampleTok rfl⟩

/-- C3 counterexample: the claim asserts that at the exact instant
`now == expiresAt` the license is still temporally valid (expiryValid
true).  On `sampleTok` (expiry at second 1000) evaluated at `now = 1000`,
the code yields `expiryValid = false`. -/
theorem c3_expiry_boundary_counterexample :
    (licenseOf sampleClaims).expiresAt = 1000 ∧
    (validate (Except.ok sampleTok) 1000 0 "prod").expiryValid = false := by
  constructor
  · rfl
  · rfl

/-- C3 (amended): the temporal check yields expiryValid true iff
`now < expiresAt`, and at the exact instant `now == expiresAt` the license
is no longer temporally valid (`expiryValid = false`) and not in grace. -/
theorem c3_expiry_strict (parsed : Except String Token) (tok : Token)
    (l : License) (now nc : Int) (ns : String)
    (h1 : jwtParse parsed = Except.ok tok)
    (h2 : parseLicense tok.claims = Except.ok l) :
    ((validate parsed now nc ns).expiryValid = decide (now < l.expiresAt)) ∧
    (now = l.expiresAt →
      (validate parsed now nc ns).expiryValid = false ∧
      (validate parsed now nc ns).isInGracePeriod = false) := by
  rw [validate_ok parsed tok l now nc ns h1 h2]
  refine ⟨checkLicense_expiryValid l now nc ns, fun hnow => ?_⟩
  subst hnow
  rw [checkLicense_expiryValid, checkLicense_isInGracePeriod]
  simp

/-- C3 witness: the amended boundary behaviour at `now = expiresAt` on a
concrete token. -/
theorem c3_expiry_strict_witness :
    (validate (Except.ok sampleTok) 1000 0 "prod").expiryValid = false ∧
    (validate (Except.ok sampleTok) 1000 0 "prod").isInGracePeriod = false :=
  (c3_expiry_strict (Except.ok sampleTok) sampleTok (licenseOf sampleClaims)
    1000 0 "prod" rfl rfl).2 rfl

/-- C4 counterexample: the claim asserts that for `now` at or after
`graceEnd` both expiryValid and inGracePeriod are false, for every license.
With a negative grace_period_days claim (-1 day), `graceEnd` falls one day
before expiry, and at `now = graceEnd` the code yields
`expiryValid = true`. -/
theorem c4_grace_window_counterexample :
    (licenseOf negGraceClaims).expiresAt +
        (licenseOf negGraceClaims).gracePeriodDays * 86400 = 913600 ∧
    (validate (Except.ok negGraceTok) 913600 0 "prod").expiryValid = true := by
  constructor
  · rfl
  · rfl

/-- C4 (amended): inGracePeriod is true iff `expiresAt < now` and
`now < graceEnd` (open-open window, `graceEnd = expiresAt +
gracePeriodDays*86400`); and for every license with a non-negative
grace-period length, at or after `graceEnd` both expiryValid and
inGracePeriod are false. -/
theorem c4_grace_window (parsed : Except String Token) (tok : Token)
    (l : License) (now nc : Int) (ns : String)
    (h1 : jwtParse parsed = Except.ok tok)
    (h2 : parseLicense tok.claims = Except.ok l) :
    ((validate parsed now nc ns).isInGracePeriod =
      (decide (l.expiresAt < now) &&
        decide (now < l.expiresAt + l.gracePeriodDays * 86400))) ∧
    (0 ≤ l.gracePeriodDays →
      l.expiresAt + l.gracePeriodDays * 86400 ≤ now →
      (validate parsed now nc ns).expiryValid = false ∧
      (validate parsed now nc ns).isInGracePeriod = false) := by
  rw [validate_ok parsed tok l now nc ns h1 h2]
  refine ⟨checkLicense_isInGracePeriod l now nc ns, fun hg hend => ?_⟩
  rw [checkLicense_expiryValid, checkLicense_isInGracePeriod]
  constructor
  · simp only [decide_eq_false_iff_not, not_lt]
    omega
  · have hb : decide (now < l.expiresAt + l.gracePeriodDays * 86400) = false := by
      simp only [decide_eq_false_iff_not, not_lt]
      omega
    rw [hb, Bool.and_false]

/-- C4 witness: the grace window evaluated at `now = graceEnd` on a
concrete token with a 2-day grace period. -/
theorem c4_grace_window_witness :
    (validate (Except.ok sampleTok) 173800 0 "prod").expiryValid = false ∧
    (validate (Except.ok sampleTok) 173800 0 "prod").isInGracePeriod = false :=
  (c4_grace_window (Except.ok sampleTok) sampleTok (licenseOf sampleClaims)
    173800 0 "prod" rfl rfl).2 (by decide) (by decide)

/-- C5: when the signature, expiry-or-grace and capacity sub-checks all
pass but the observed namespace differs from the license namespace, the
verdict is invalid and the composed error text names both namespaces. -/
theorem c5_namespace_binding (parsed : Except String Token) (tok : Token)
    (l : License) (now nc : Int) (ns : String)
    (h1 : jwtParse parsed = Except.ok tok)
    (h2 : parseLicense tok.claims = Except.ok l)
    (hsig : (validate parsed now nc ns).signatureValid = true)
    (hexp : ((validate parsed now nc ns).expiryValid ||
      (validate parsed now nc ns).isInGracePeriod) = true)
    (hnode : (validate parsed now nc ns).nodeCountValid = true)
    (hns : ns ≠ l.nspace) :
    (validate parsed now nc ns).valid = false ∧
    (validate parsed now nc ns).errorMsg = some (mismatchMsg l.nspace ns) ∧
    ∃ a b c, mismatchMsg l.nspace ns = a ++ l.nspace ++ b ++ ns ++ c := by
  rw [validate_ok parsed tok l now nc ns h1 h2]
  refine ⟨?_, ?_, ?_⟩
  · simp [checkLicense, hns]
  · simp [checkLicense, hns]
  · exact ⟨"namespace mismatch: license is for namespace \x27",
      "\x27 but validator is running in \x27", "\x27", rfl⟩

/-- C5 witness: a concrete in-term, in-capacity token validated from the
wrong namespace. -/
theorem c5_namespace_binding_witness :
    (validate (Except.ok sampleTok) 500 3 "dev").valid = false ∧
    (validate (Except.ok sampleTok) 500 3 "dev").errorMsg =
      some (mismatchMsg (licenseOf sampleClaims).nspace "dev") ∧
    ∃ a b c, mismatchMsg (licenseOf sampleClaims).nspace "dev" =
      a ++ (licenseOf sampleClaims).nspace ++ b ++ "dev" ++ c :=
  c5_namespace_binding (Except.ok sampleTok) sampleTok (licenseOf sampleClaims)
    500 3 "dev" rfl rfl rfl (by decide) (by decide) (by decide)

/-- C10: when node counting fails, runValidation proceeds with an observed
count of 0, and the capacity check then passes for every license with a
non-negative licensed node count. -/
theorem c10_node_count_fallback (parsed : Except String Token) (tok : Token)
    (l : License) (e : String) (now : Int) (ns : String)
    (h1 : jwtParse parsed = Except.ok tok)
    (h2 : parseLicense tok.claims = Except.ok l)
    (h3 : 0 ≤ l.licensedNodes) :
    (validate parsed now (countOrZero (Except.error e)) ns).nodeCountValid = true := by
  have hc : countOrZero (Except.error e) = 0 := rfl
  rw [hc, validate_ok parsed tok l now 0 ns h1 h2, checkLicense_nodeCountValid]
  exact decide_eq_true h3

/-- C10 witness: a failed node count evaluated against a concrete 5-node
license. -/
theorem c10_node_count_fallback_witness :
    (validate (Except.ok sampleTok) 500
      (countOrZero (Except.error "failed to list nodes")) "prod").nodeCountValid = true :=
  c10_node_count_fallback (Except.ok sampleTok) sampleTok (licenseOf sampleClaims)
    "failed to list nodes" 500 "prod" rfl rfl (by decide)

/-- C1 counterexample: the claim fixes the expected family to the
asymmetric 512-bit class, but the keyfunc accepts every RSA PKCS#1 v1.5
method: a validly signed RS256 token — an algorithm outside the
512-bit class — is accepted and yields a License instead of being
rejected. -/
theorem c1_alg_family_counterexample :
    isSigningMethodRSA Alg.RS256 = true ∧
    isAsymmetric512Class Alg.RS256 = false ∧
    (validate (Except.ok rs256Tok) 500 3 "prod").license.isSome = true ∧
    (validate (Except.ok rs256Tok) 500 3 "prod").errorMsg = none ∧
    (validate (Except.ok rs256Tok) 500 3 "prod").valid = true := by
  refine ⟨rfl, rfl, rfl, rfl, rfl⟩

/-- C1 (amended): verification fixes the expected signing-algorithm family
— RSA PKCS#1 v1.5, i.e. RS256/RS384/RS512 — from the verifier itself,
never from the token header: any token asserting an algorithm outside that
family (none, HMAC, ECDSA, RSA-PSS), or whose signature does not verify
under the trusted key, produces an error with no License and no decoded
claims. -/
theorem c1_alg_family (t : Token) (now nc : Int) (ns : String)
    (h : isSigningMethodRSA t.headerAlg = false ∨ t.sigOK = false) :
    (validate (Except.ok t) now nc ns).valid = false ∧
    (validate (Except.ok t) now nc ns).license = none ∧
    (validate (Except.ok t) now nc ns).errorMsg.isSome = true := by
  cases ha : isSigningMethodRSA t.headerAlg with
  | false =>
      simp [validate, jwtParse, ha]
  | true =>
      have hs : t.sigOK = false := by
        rcases h with h | h
        · rw [ha] at h; exact absurd h (by simp)
        · exact h
      simp [validate, jwtParse, ha, hs]

/-- C1 witness: a token asserting the "none" algorithm is rejected with no
License. -/
theorem c1_alg_family_witness :
    (validate (Except.ok noneAlgTok) 500 3 "prod").valid = false ∧
    (validate (Except.ok noneAlgTok) 500 3 "prod").license = none ∧
    (validate (Except.ok noneAlgTok) 500 3 "prod").errorMsg.isSome = true :=
  c1_alg_family noneAlgTok 500 3 "prod" (Or.inl rfl)

/-- C6: the classified status equals the first-matching-rule chain of the
spec (valid, grace period, expired, node limit, signature, catch-all), and
a result that is simultaneously invalid, in grace and over the node limit
classifies as grace_period. -/
theorem c6_status_precedence :
    (∀ r, getValidationStatus r = statusSpec r) ∧
    getValidationStatus graceSample = "grace_period" := by
  constructor
  · intro r
    obtain ⟨v, lic, em, ea, d, g, ncnt, ln, ncv, nsv, ans, lns, sv, ev⟩ := r
    cases v <;> cases g <;> cases ev <;> cases ncv <;> cases sv <;> rfl
  · rfl

/-- C7 counterexample: the claim says a result classified grace_period
receives the grace-period message even when an error is attached.  A
namespace-mismatched token inside its grace window classifies as
grace_period but its message is the mismatch error text, not the
grace-period message. -/
theorem c7_message_counterexample :
    getValidationStatus (validate (Except.ok sampleTok) 90000 0 "dev") =
      "grace_period" ∧
    getValidationMessage (validate (Except.ok sampleTok) 90000 0 "dev") =
      mismatchMsg "prod" "dev" ∧
    getValidationMessage (validate (Except.ok sampleTok) 90000 0 "dev") ≠
      graceMessage (validate (Except.ok sampleTok) 90000 0 "dev") := by
  refine ⟨rfl, rfl, ?_⟩
  decide

/-- C7 (amended): the message follows the status precedence except that an
attached error takes priority immediately after the valid rule: valid,
attached error text, grace period, expired, node limit (with concrete
numbers substituted), signature, catch-all. -/
theorem c7_message_precedence :
    ∀ r, getValidationMessage r = messageSpec r := by
  intro r
  obtain ⟨v, lic, em, ea, d, g, ncnt, ln, ncv, nsv, ans, lns, sv, ev⟩ := r
  cases em <;> cases v <;> cases g <;> cases ev <;> cases ncv <;> cases sv <;> rfl

/-- C9 counterexample: the claim says a present-but-ill-typed claim (e.g. a
non-numeric licensed_nodes) yields a ClaimsInvalid-class error and no
License.  The code silently zero-values the field: a signature-verified
token with a string licensed_nodes decodes to a License with
licensedNodes = 0 and no error at all. -/
theorem c9_claims_invalid_counterexample :
    (parseLicense badNodesClaims).toOption.isSome = true ∧
    (licenseOf badNodesClaims).licensedNodes = 0 ∧
    (validate (Except.ok badNodesTok) 500 0 "prod").license.isSome = true ∧
    (validate (Except.ok badNodesTok) 500 0 "prod").errorMsg = none := by
  refine ⟨rfl, rfl, rfl, rfl⟩

/-- C9 (amended): claim decoding never fails — a claim present but not
decodable to its expected shape is silently skipped, leaving the
corresponding License field at its zero value; in particular a non-numeric
licensed_nodes yields a License with licensedNodes = 0 and no error. -/
theorem c9_claims_never_fail :
    (∀ claims, ∃ l, parseLicense claims = Except.ok l) ∧
    (∀ claims s, claims.lookup "licensed_nodes" = some (ClaimVal.str s) →
      ∃ l, parseLicense claims = Except.ok l ∧ l.licensedNodes = 0) := by
  constructor
  · intro claims
    exact ⟨licenseOf claims, rfl⟩
  · intro claims s h
    refine ⟨licenseOf claims, rfl, ?_⟩
    simp [licenseOf, parseLicense, h, asNum]

/-- C9 witness: the never-failing decode applied to the concrete ill-typed
claim map. -/
theorem c9_claims_never_fail_witness :
    (∃ l, parseLicense badNodesClaims = Except.ok l) ∧
    (∃ l, parseLicense badNodesClaims = Except.ok l ∧ l.licensedNodes = 0) :=
  ⟨c9_claims_never_fail.1 badNodesClaims,
   c9_claims_never_fail.2 badNodesClaims "ten" rfl⟩

theorem waitList_shifted (n : Nat) : ∀ a, waitList (a + 1) n =
    (List.range n).map (fun i => (a + 1 + i) * (a + 1 + i)) := by
  induction n with
  | zero => intro a; simp [waitList]
  | succ m ih =>
      intro a
      rw [waitList, List.range_succ_eq_map]
      simp only [List.map_cons, List.map_map, Nat.add_zero]
      rw [show a + 1 + 1 = a + 1 + 1 from rfl, ih (a + 1)]
      simp only [Nat.lt_irrefl, List.singleton_append, Nat.zero_lt_succ, if_pos]
      congr 1
      apply List.map_congr_left
      intro i _
      simp only [Function.comp_apply]
      have h : a + 1 + 1 + i = a + 1 + (i + 1) := by omega
      rw [h]

theorem waitList_from_zero (n : Nat) : waitList 0 (n + 1) =
    (List.range n).map (fun i => (i + 1) * (i + 1)) := by
  rw [waitList]
  simp only [Nat.lt_irrefl, if_neg, List.nil_append]
  rw [show (0 : Nat) + 1 = 0 + 1 from rfl, waitList_shifted n 0]
  apply List.map_congr_left
  intro i _
  have h : 0 + 1 + i = i + 1 := by omega
  rw [h]

theorem sendAux_cancelStep (aE cA : Nat → Option String) (r fuel attempt : Nat)
    (le : Option String) (reason : String) (h : 0 < attempt)
    (hc : cA attempt = some reason) :
    sendAux aE cA r (fuel + 1) attempt le =
      (SendResult.ctxCancelled reason, [], 0) := by
  rw [sendAux.eq_def]
  simp [h, hc]

theorem sendAux_failStep_pos (aE cA : Nat → Option String) (r fuel attempt : Nat)
    (le : Option String) (e : String) (h : 0 < attempt) (hc : cA attempt = none)
    (he : aE attempt = some e) :
    sendAux aE cA r (fuel + 1) attempt le =
      ((sendAux aE cA r fuel (attempt + 1) (some e)).1,
       attempt * attempt :: (sendAux aE cA r fuel (attempt + 1) (some e)).2.1,
       (sendAux aE cA r fuel (attempt + 1) (some e)).2.2 + 1) := by
  rw [sendAux.eq_def]
  simp [h, hc, he]

theorem sendAux_failStep_zero (aE cA : Nat → Option String) (r fuel : Nat)
    (le : Option String) (e : String) (he : aE 0 = some e) :
    sendAux aE cA r (fuel + 1) 0 le =
      ((sendAux aE cA r fuel 1 (some e)).1,
       (sendAux aE cA r fuel 1 (some e)).2.1,
       (sendAux aE cA r fuel 1 (some e)).2.2 + 1) := by
  rw [sendAux.eq_def]
  simp [he]

theorem sendAux_allFail (attemptErr cancelAt : Nat → Option String)
    (retries : Nat) (E : Nat → String)
    (hE : ∀ k, attemptErr k = some (E k))
    (hC : ∀ k, cancelAt k = none) :
    ∀ fuel attempt lastErr,
      sendAux attemptErr cancelAt retries (fuel + 1) attempt lastErr =
        (SendResult.retriesExhausted retries (E (attempt + fuel)),
         waitList attempt (fuel + 1), fuel + 1) := by
  intro fuel
  induction fuel with
  | zero =>
      intro attempt lastErr
      by_cases h : 0 < attempt <;>
        simp [sendAux, hE, hC, waitList, h]
  | succ n ih =>
      intro attempt lastErr
      by_cases h : 0 < attempt
      · rw [sendAux_failStep_pos attemptErr cancelAt retries (n + 1) attempt
          lastErr (E attempt) h (hC attempt) (hE attempt),
          ih (attempt + 1) (some (E attempt))]
        have hw : waitList attempt (n + 1 + 1) =
            (if 0 < attempt then [attempt * attempt] else []) ++
              waitList (attempt + 1) (n + 1) := rfl
        rw [hw, if_pos h]
        have harith : attempt + 1 + n = attempt + (n + 1) := by omega
        rw [harith]
        rfl
      · have h0 : attempt = 0 := by omega
        subst h0
        rw [sendAux_failStep_zero attemptErr cancelAt retries (n + 1)
          lastErr (E 0) (hE 0), ih 1 (some (E 0))]
        have hw : waitList 0 (n + 1 + 1) =
            (if (0 : Nat) < 0 then [0 * 0] else []) ++ waitList 1 (n + 1) := rfl
        rw [hw]
        have harith : 1 + n = 0 + (n + 1) := by omega
        rw [harith]
        simp

theorem sendAux_cancel (attemptErr cancelAt : Nat → Option String)
    (retries : Nat) (E : Nat → String) (k : Nat) (reason : String)
    (hE : ∀ j, j < k → attemptErr j = some (E j))
    (hCk : cancelAt k = some reason)
    (hC : ∀ j, 1 ≤ j → j < k → cancelAt j = none)
    (hk1 : 1 ≤ k) :
    ∀ fuel attempt lastErr, attempt ≤ k → k < attempt + fuel →
      sendAux attemptErr cancelAt retries fuel attempt lastErr =
        (SendResult.ctxCancelled reason, waitList attempt (k - attempt),
         k - attempt) := by
  intro fuel
  induction fuel with
  | zero => intro attempt lastErr h1 h2; omega
  | succ n ih =>
      intro attempt lastErr h1 h2
      by_cases hak : attempt = k
      · subst hak
        have h0 : 0 < attempt := hk1
        simp [sendAux, h0, hCk, Nat.sub_self, waitList]
      · have hlt : attempt < k := Nat.lt_of_le_of_ne h1 hak
        have hs : k - attempt = (k - (attempt + 1)) + 1 := by omega
        by_cases h0 : 0 < attempt
        · simp only [sendAux, h0, if_pos, hC attempt h0 hlt, hE attempt hlt,
            ih (attempt + 1) (some (E attempt)) (by omega) (by omega)]
          rw [hs, waitList]
          simp [h0]
        · have h00 : attempt = 0 := by omega
          subst h00
          simp only [sendAux, Nat.lt_irrefl, if_neg, hE 0 hlt,
            ih 1 (some (E 0)) (by omega) (by omega)]
          rw [hs, waitList]
          simp

/-- C8: with a delivery that fails on every attempt the reporter makes
exactly maxRetries+1 tries with quadratic waits 1,4,9,… seconds before
every attempt but the first and ends in a retries-exhausted error wrapping
the last failure; a context cancellation observed during the wait before
attempt k aborts the whole operation with the cancellation reason after
exactly k attempts. -/
theorem c8_retry_policy (retries : Nat) (err : Nat → String)
    (cancelAt : Nat → Option String) (k : Nat) (reason : String) :
    ((∀ j, cancelAt j = none) →
      sendPhoneHome retries (fun j => some (err j)) cancelAt =
        (SendResult.retriesExhausted retries (err retries),
         (List.range retries).map (fun i => (i + 1) * (i + 1)),
         retries + 1)) ∧
    (1 ≤ k → k ≤ retries → cancelAt k = some reason →
      (∀ j, 1 ≤ j → j < k → cancelAt j = none) →
      sendPhoneHome retries (fun j => some (err j)) cancelAt =
        (SendResult.ctxCancelled reason,
         (List.range (k - 1)).map (fun i => (i + 1) * (i + 1)),
         k)) := by
  constructor
  · intro hC
    unfold sendPhoneHome
    rw [sendAux_allFail (fun j => some (err j)) cancelAt retries err
      (fun _ => rfl) hC retries 0 none]
    rw [Nat.zero_add, waitList_from_zero]
  · intro hk1 hkr hCk hC
    unfold sendPhoneHome
    rw [sendAux_cancel (fun j => some (err j)) cancelAt retries err k reason
      (fun j _ => rfl) hCk hC hk1 (retries + 1) 0 none (by omega) (by omega)]
    have hs : k - 0 = (k - 1) + 1 := by omega
    rw [hs, waitList_from_zero]
    have hk : k - 1 + 1 = k := by omega
    rw [hk]

/-- C8 witness: four attempts with waits 1,4,9 for maxRetries = 3 against a
permanently failing endpoint, and an abort after two attempts when the
context is cancelled during the second wait. -/
theorem c8_retry_policy_witness :
    (sendPhoneHome 3 (fun _ => some "connection refused") (fun _ => none) =
      (SendResult.retriesExhausted 3 "connection refused",
       (List.range 3).map (fun i => (i + 1) * (i + 1)), 4)) ∧
    (sendPhoneHome 3 (fun _ => some "connection refused")
        (fun j => if j = 2 then some "context canceled" else none) =
      (SendResult.ctxCancelled "context canceled",
       (List.range 1).map (fun i => (i + 1) * (i + 1)), 2)) := by
  constructor
  · exact (c8_retry_policy 3 (fun _ => "connection refused") (fun _ => none)
      1 "x").1 (fun _ => rfl)
  · exact (c8_retry_policy 3 (fun _ => "connection refused")
      (fun j => if j = 2 then some "context canceled" else none)
      2 "context canceled").2 (by omega) (by omega) rfl
      (fun j hj1 hj2 => by
        have hj : j = 1 := by omega
        subst hj
        rfl)

end ESLV
